import Mathlib

/-!
Verification development for the item resolution and classification pipeline
of the hundreacrerealm session-log viewer.

The embedding covers:
* the catalog data model (`Item`, `AttributeBlocks`, raw record files);
* the inventory name extractor shared by the offline script and the POST route;
* the offline session cache builder (`scripts/precompute_all_session_items.js`,
  `processSession` / `loadAllItemData`);
* the on-demand POST route build, including the faithful embedding of the
  `searchForItems` helper whose local binding shadows the outer accumulator;
* the runtime resolution cache (`fetchItem` and the seeding call
  `setItemCache(itemsData)` in the session page component);
* the classification engine (`getItemCategory` and its name-heuristic
  fallback `categorizeItemByName`).

File stores and network responses are modelled explicitly: parsed record
files are lists of raw documents in scan order, the session directory is a
record of the two files the builder touches, and the single-item lookup
service response is a small inductive covering the ok / not-ok / thrown
cases of the `fetch` call.
-/

/-- Payload of the `this` attribute block; only the fields the pipeline
reads are modelled.  `spell` and `treasure` are JSON strings, `base_price`
a JSON number. -/
structure ThisBlock where
  spell : Option String
  base_price : Option Nat
  treasure : Option String
deriving DecidableEq, Repr

/-- The attribute blocks of a record.  The `intact` / `damaged` /
`unalerted` / `alerted` blocks are JSON objects whose payloads the
classification code never reads, only tests for presence; a present block
is an object and hence truthy, so presence is modelled as a `Bool`.  The
`this` block is modelled with the payload fields the code reads. -/
structure AttributeBlocks where
  intact : Bool
  damaged : Bool
  unalerted : Bool
  alerted : Bool
  this : Option ThisBlock
deriving DecidableEq, Repr

/-- Canonical catalog entry, after the loader has applied the
`attributeBlocks || {}` and `parts || []` defaults. -/
structure Item where
  id : String
  name : String
  attributeBlocks : AttributeBlocks
  parts : List String
deriving DecidableEq, Repr

/-- The empty attribute-block mapping `{}`. -/
def emptyBlocks : AttributeBlocks :=
  { intact := false, damaged := false, unalerted := false, alerted := false,
    this := none }

/-- A parsed record file as read from the items or spells store, before the
loader applies defaults: `attributeBlocks` and `parts` may be absent. -/
structure RawDoc where
  id : String
  name : String
  attributeBlocks : Option AttributeBlocks
  parts : Option (List String)
deriving DecidableEq, Repr

/-- The projection `{ id, name, attributeBlocks: d.attributeBlocks || {},
parts: d.parts || [] }` applied by both loaders to a parsed document. -/
def mkRecord (d : RawDoc) : Item :=
  { id := d.id, name := d.name,
    attributeBlocks := d.attributeBlocks.getD emptyBlocks,
    parts := d.parts.getD [] }

/-- JavaScript truthiness of an optional string: `undefined` and the empty
string are falsy. -/
def jsTruthyStr : Option String → Bool
  | none => false
  | some s => !(s == "")

/-- JavaScript truthiness of an optional number: `undefined` and `0` are
falsy. -/
def jsTruthyNat : Option Nat → Bool
  | none => false
  | some n => !(n == 0)

/-- Property lookup on a JavaScript object modelled as an association list
(keys are unique because `recordSet` overwrites in place). -/
def lookupRec (m : List (String × Item)) (k : String) : Option Item :=
  match m with
  | [] => none
  | p :: rest => if p.1 = k then some p.2 else lookupRec rest k

/-- Property assignment `m[k] = v` on a JavaScript object: overwrites in
place when the key exists, otherwise appends in insertion order. -/
def recordSet (m : List (String × Item)) (k : String) (v : Item) :
    List (String × Item) :=
  match m with
  | [] => [(k, v)]
  | p :: rest => if p.1 = k then (k, v) :: rest else p :: recordSet rest k v

/-- `Set.add`: JavaScript sets keep insertion order and ignore duplicates. -/
def setAdd (s : List String) (n : String) : List String :=
  if n ∈ s then s else s ++ [n]

/-- `attributeBlocks.this?.spell`. -/
def thisSpell (b : AttributeBlocks) : Option String :=
  b.this.bind (fun t => t.spell)

/-- `attributeBlocks.this?.base_price`. -/
def thisBasePrice (b : AttributeBlocks) : Option Nat :=
  b.this.bind (fun t => t.base_price)

/-- `attributeBlocks.this?.treasure`. -/
def thisTreasure (b : AttributeBlocks) : Option String :=
  b.this.bind (fun t => t.treasure)

/-- ASCII lower-casing of one character, as `String.prototype.toLowerCase`
acts on the ASCII item names in play. -/
def charLower (c : Char) : Char :=
  if 'A' ≤ c ∧ c ≤ 'Z' then Char.ofNat (c.toNat + 32) else c

/-- `itemName.toLowerCase()`. -/
def toLowerAscii (s : String) : String :=
  String.mk (s.data.map charLower)

/-- Does the second list start with the first? -/
def leadsWith : List Char → List Char → Bool
  | [], _ => true
  | _ :: _, [] => false
  | a :: as, b :: bs => a == b && leadsWith as bs

/-- Contiguous-sublist test on character lists. -/
def listIncludes (s pat : List Char) : Bool :=
  match s with
  | [] => pat.isEmpty
  | _ :: rest => leadsWith pat s || listIncludes rest pat

/-- `s.includes(pat)` on strings. -/
def strIncludes (s pat : String) : Bool :=
  listIncludes s.data pat.data

/-- Embeds `categorizeItemByName` from the session page component: the
case-insensitive keyword heuristic used when no catalog record is cached,
with the source's keyword sets in the source's order. -/
def categorizeItemByName (itemName : String) : String :=
  let name := toLowerAscii itemName
  if strIncludes name "bow" || strIncludes name "sword" || strIncludes name "axe" ||
      strIncludes name "spear" || strIncludes name "mace" || strIncludes name "staff" ||
      strIncludes name "crossbow" || strIncludes name "halberd" || strIncludes name "broadsword" ||
      strIncludes name "great sword" || strIncludes name "great axe" || strIncludes name "morning star" ||
      strIncludes name "thrusting sword" || strIncludes name "short sword" then
    "weapon"
  else if strIncludes name "armor" || strIncludes name "shield" || strIncludes name "helmet" ||
      strIncludes name "breastplate" || strIncludes name "greaves" || strIncludes name "gauntlets" then
    "armor"
  else if strIncludes name "peace with nature" || strIncludes name "type vii" || strIncludes name "type vi" ||
      strIncludes name "type v" || strIncludes name "type iv" || strIncludes name "type iii" ||
      strIncludes name "type ii" || strIncludes name "type i" then
    "spell"
  else if strIncludes name "great" && (strIncludes name "treasure" || strIncludes name "sword" ||
      strIncludes name "axe" || strIncludes name "armor") then
    "great_treasure"
  else if strIncludes name "treasure" || strIncludes name "gold" || strIncludes name "jewel" ||
      strIncludes name "gem" || strIncludes name "coin" then
    "treasure"
  else if strIncludes name "native" || strIncludes name "guard" || strIncludes name "mercenary" ||
      strIncludes name "lancer" || strIncludes name "dwarf" || strIncludes name "elf" then
    "native"
  else
    "other"

/-- Embeds `getItemCategory` from the session page component: looks the
item's name up in the runtime cache; with a cached record the structural
rules are applied in source order (armor, weapon, spell, priced treasure),
and on no match — or with no cached record — it falls back to the name
heuristic. -/
def getItemCategory (itemCache : List (String × Item)) (itemName : String) :
    String :=
  match lookupRec itemCache itemName with
  | some cached =>
      if cached.attributeBlocks.intact && cached.attributeBlocks.damaged then
        "armor"
      else if cached.attributeBlocks.unalerted && cached.attributeBlocks.alerted then
        "weapon"
      else if jsTruthyStr (thisSpell cached.attributeBlocks) then
        "spell"
      else if jsTruthyNat (thisBasePrice cached.attributeBlocks) then
        if thisTreasure cached.attributeBlocks == some "large" then
          "large_treasure"
        else
          "treasure"
      else
        categorizeItemByName itemName
  | none => categorizeItemByName itemName

/-- An item reference appearing inside one of the eight inventory buckets;
the code only reads its `name` property, which may be absent. -/
structure ItemRef where
  name : Option String
deriving DecidableEq, Repr

/-- The eight fixed item buckets of one character's `items` object.  The
bucket arrays may contain null entries, which the code strips with
`.filter(Boolean)`. -/
structure CharItems where
  weapons : List (Option ItemRef)
  armor : List (Option ItemRef)
  treasures : List (Option ItemRef)
  great_treasures : List (Option ItemRef)
  spells : List (Option ItemRef)
  natives : List (Option ItemRef)
  other : List (Option ItemRef)
  unknown : List (Option ItemRef)
deriving DecidableEq, Repr

/-- The eight bucket arrays in source order, flattened with `.flat()` and
nulls dropped with `.filter(Boolean)`. -/
def charItemRefs (c : CharItems) : List ItemRef :=
  (c.weapons ++ c.armor ++ c.treasures ++ c.great_treasures ++
    c.spells ++ c.natives ++ c.other ++ c.unknown).filterMap id

/-- A session's parsed `character_inventories.json`: the values of the
character map, each either lacking an `items` object (the `charData?.items`
guard) or carrying the eight buckets. -/
def Inventories : Type := List (Option CharItems)

instance : DecidableEq Inventories := by
  unfold Inventories
  infer_instance

/-- Embeds the shared name-collection loop (script lines 84-104, POST route
lines 48-68): for every character with an `items` object, flatten the eight
buckets, drop null entries, and add each truthy `item?.name` to the
insertion-ordered set `allItems`. -/
def extractNames (inventories : Inventories) : List String :=
  inventories.foldl
    (fun acc c =>
      match c with
      | none => acc
      | some charItems =>
          (charItemRefs charItems).foldl
            (fun a it =>
              match it.name with
              | some n => if n = "" then a else setAdd a n
              | none => a)
            acc) []

/-- Embeds `loadAllItemData` from the offline script: fold the parsed item
record files (in scan order across category directories), then the parsed
spell record files (in scan order across level directories), into one
JavaScript object keyed by `name`; a later file with the same name
overwrites the earlier entry. -/
def loadAllItemData (itemFiles spellFiles : List RawDoc) :
    List (String × Item) :=
  let itemData :=
    itemFiles.foldl (fun m d => recordSet m d.name (mkRecord d)) []
  spellFiles.foldl (fun m d => recordSet m d.name (mkRecord d)) itemData

/-- The matching loop of the offline script's `processSession`
(lines 110-116): walk the extracted names in set order, adding matched
names to `sessionItems` and unmatched names to `missingItems`. -/
def buildLoop (catalog : List (String × Item)) :
    List String → List (String × Item) → List String →
      List (String × Item) × List String
  | [], sessionItems, missingItems => (sessionItems, missingItems)
  | n :: rest, sessionItems, missingItems =>
      match lookupRec catalog n with
      | some it => buildLoop catalog rest (sessionItems ++ [(n, it)]) missingItems
      | none => buildLoop catalog rest sessionItems (missingItems ++ [n])

/-- `processSession`'s partition of the extracted name set into the result
mapping and the missing list, starting from empty accumulators. -/
def buildSessionItems (catalog : List (String × Item)) (names : List String) :
    List (String × Item) × List String :=
  buildLoop catalog names [] []

/-- Deterministic rendering of a `this` payload, standing in for its
`JSON.stringify` serialization. -/
def serializeThis (t : ThisBlock) : String :=
  "\x7bspell: " ++ (t.spell.getD "-") ++
    ", base_price: " ++ (t.base_price.map toString).getD "-" ++
    ", treasure: " ++ (t.treasure.getD "-") ++ "\x7d"

/-- Deterministic rendering of an attribute-block mapping. -/
def serializeBlocks (b : AttributeBlocks) : String :=
  "\x7bintact: " ++ toString b.intact ++
    ", damaged: " ++ toString b.damaged ++
    ", unalerted: " ++ toString b.unalerted ++
    ", alerted: " ++ toString b.alerted ++
    ", this: " ++ (b.this.map serializeThis).getD "-" ++ "\x7d"

/-- Deterministic rendering of one catalog record. -/
def serializeItem (it : Item) : String :=
  "\x7bid: " ++ it.id ++ ", name: " ++ it.name ++
    ", attributeBlocks: " ++ serializeBlocks it.attributeBlocks ++
    ", parts: [" ++ String.intercalate ", " it.parts ++ "]\x7d"

/-- Stands in for `JSON.stringify(sessionItems, null, 2)`: a deterministic
byte rendering of the result mapping, in the mapping's key order. -/
def serializeItems (m : List (String × Item)) : String :=
  "\x7b" ++
    String.intercalate ", "
      (m.map (fun p => p.1 ++ ": " ++ serializeItem p.2)) ++ "\x7d"

/-- The two files of one session directory that `processSession` touches:
the parsed `character_inventories.json` input (absent file modelled as
`none`) and the bytes of the `precomputed_items.json` artifact. -/
structure SessionDir where
  character_inventories : Option Inventories
  precomputed_items : Option String
deriving DecidableEq

/-- Outcome of the `fs.writeFileSync` call: it either completes, or fails
after the destination file has already been opened with truncation. -/
inductive WriteOutcome
  | success
  | failAfterTruncate
deriving DecidableEq, Repr

/-- Models Node's `fs.writeFileSync(path, content)`: the destination file is
opened with `O_TRUNC` and then written in place — there is no temporary
file and no rename.  On success the file holds `content`; if the write
fails after the open, the file has been truncated. -/
def writeFileSyncModel (content : String) : WriteOutcome → Option String
  | .success => some content
  | .failAfterTruncate => some ""

/-- The artifact states a concurrent reader of the destination path can
observe around a successful `fs.writeFileSync`: the previous bytes, the
truncated file, and the new bytes, in that order. -/
def writeObservableStates (old : Option String) (content : String) :
    List (Option String) :=
  [old, some "", some content]

/-- The result value of the offline script's `processSession`. -/
inductive BuildStatus
  | no_inventories
  | success (itemsFound totalItems missingItems : Nat)
  | error
deriving DecidableEq, Repr

/-- Embeds the offline script's `processSession` for one session directory,
with the outcome of its single `fs.writeFileSync` made explicit: if the
inventories file is absent the directory is untouched; otherwise the
extracted names are partitioned against the catalog, the serialized result
mapping is written over `precomputed_items.json` in place, and the counts
are returned (a failing write is caught and reported as an error result). -/
def processSessionW (catalog : List (String × Item)) (dir : SessionDir)
    (w : WriteOutcome) : SessionDir × BuildStatus :=
  match dir.character_inventories with
  | none => (dir, .no_inventories)
  | some inventories =>
      let allItems := extractNames inventories
      let built := buildSessionItems catalog allItems
      let artifact := serializeItems built.1
      ({ dir with precomputed_items := writeFileSyncModel artifact w },
        match w with
        | .success => .success built.1.length allItems.length built.2.length
        | .failAfterTruncate => .error)

/-- `processSession` on the normal path where the artifact write succeeds. -/
def processSession (catalog : List (String × Item)) (dir : SessionDir) :
    SessionDir × BuildStatus :=
  processSessionW catalog dir .success

/-- A JavaScript object produced by `JSON.parse` of one record file in the
POST route's `searchForItems`, together with the extra properties later
assigned onto it.  JavaScript objects accept arbitrary keyed assignments,
so the record-shaped payloads assigned under the item's own name are kept
in `extra`. -/
structure ParsedDoc where
  doc : RawDoc
  extra : List (String × Item)
deriving DecidableEq, Repr

/-- Embeds the POST route's `searchForItems` helper (part_000 lines 76-103).
Inside the file loop the parsed document is bound to a local `itemData`
constant that shadows the outer `itemData` accumulator declared at line 73;
the assignment `itemData[itemData.name] = { id, name, attributeBlocks,
parts }` therefore stores the record as a property of the parsed document
itself, which is discarded at the end of the iteration.  Each iteration's
shadowed assignment is modelled on the parsed document, and the outer
accumulator is returned exactly as the source leaves it: unchanged. -/
def searchForItems (outerItemData : List (String × Item))
    (files : List RawDoc) (itemNames : List String) :
    List (String × Item) :=
  match files with
  | [] => outerItemData
  | parsed :: rest =>
      let shadowed : ParsedDoc :=
        if parsed.name ∈ itemNames then
          { doc := parsed, extra := [(parsed.name, mkRecord parsed)] }
        else
          { doc := parsed, extra := [] }
      let _ := shadowed
      searchForItems outerItemData rest itemNames

/-- The POST route's spell loop (part_000 lines 109-134): here the parsed
document is bound to `spellData`, so the assignment
`itemData[spellData.name] = …` does reach the outer accumulator. -/
def spellSearchLoop (itemData : List (String × Item))
    (files : List RawDoc) (allItems : List String) :
    List (String × Item) :=
  match files with
  | [] => itemData
  | spellData :: rest =>
      if spellData.name ∈ allItems then
        spellSearchLoop (recordSet itemData spellData.name (mkRecord spellData))
          rest allItems
      else
        spellSearchLoop itemData rest allItems

/-- The response body of the on-demand POST build. -/
structure PostResult where
  itemData : List (String × Item)
  itemsFound : Nat
  totalItems : Nat
  missingItems : List String
deriving DecidableEq, Repr

/-- Embeds the on-demand per-session build of the POST route (part_000
lines 47-145): extract the referenced names, run `searchForItems` over the
items store and the spell loop over the spells store, persist the
accumulated mapping to `precomputed_items.json`, and report the counts and
the names absent from the persisted mapping. -/
def postPrecompute (itemFiles spellFiles : List RawDoc)
    (inventories : Inventories) : PostResult :=
  let allItems := extractNames inventories
  let itemData : List (String × Item) := []
  let itemData := searchForItems itemData itemFiles allItems
  let itemData := spellSearchLoop itemData spellFiles allItems
  { itemData := itemData,
    itemsFound := itemData.length,
    totalItems := allItems.length,
    missingItems := allItems.filter (fun n => (lookupRec itemData n).isNone) }

/-- Response of the single-item lookup service as seen by `fetchItem`'s
`fetch` call: an ok response carrying the record, a non-ok response (the
explicit not-found signal), or a thrown network / parse error. -/
inductive LookupResp
  | ok (item : Item)
  | notOk
  | thrown
deriving DecidableEq, Repr

/-- What one `fetchItem` call produces: the value returned to the caller,
the runtime cache map after the call, and how many lookup-service calls
the invocation performed. -/
structure FetchResult where
  result : Option Item
  cache : List (String × Item)
  lookups : Nat
deriving DecidableEq, Repr

/-- Embeds `fetchItem` from the session page component (part_000 lines
488-506): a cached name is returned at once with no lookup; otherwise one
lookup is issued — on an ok response the record is merged into the cache
via `setItemCache(prev => ({ ...prev, [itemName]: item }))` and returned,
on a non-ok response or a thrown error the call returns the explicit
absent result `null` and the cache is left untouched. -/
def fetchItem (itemCache : List (String × Item)) (itemName : String)
    (resp : LookupResp) : FetchResult :=
  match lookupRec itemCache itemName with
  | some it => { result := some it, cache := itemCache, lookups := 0 }
  | none =>
      match resp with
      | .ok item =>
          { result := some item,
            cache := recordSet itemCache itemName item,
            lookups := 1 }
      | .notOk => { result := none, cache := itemCache, lookups := 1 }
      | .thrown => { result := none, cache := itemCache, lookups := 1 }

/-- Embeds the seeding of the runtime resolution cache (part_000 lines
403-406): when the precomputed-items response is ok, the component calls
`setItemCache(itemsData)` with the parsed precomputed object itself — the
React state setter applied to a plain value replaces the previous map
wholesale. -/
def setItemCacheSeed (current itemsData : List (String × Item)) :
    List (String × Item) :=
  let _ := current
  itemsData

section Fixtures

/-- A weapon-shaped record file in the items store. -/
def shortSwordDoc : RawDoc :=
  { id := "SS1", name := "Short Sword",
    attributeBlocks := some
      { intact := false, damaged := false, unalerted := true, alerted := true,
        this := some { spell := none, base_price := some 4, treasure := none } },
    parts := none }

/-- Inventories of a single character holding one weapon reference. -/
def oneSwordInventories : Inventories :=
  [some { weapons := [some { name := some "Short Sword" }], armor := [],
          treasures := [], great_treasures := [], spells := [], natives := [],
          other := [], unknown := [] }]

/-- An adversarial record exposing all four side blocks as well as a spell
and a priced large-treasure payload at once. -/
def omniItem : Item :=
  { id := "OM1", name := "Omni Chit",
    attributeBlocks :=
      { intact := true, damaged := true, unalerted := true, alerted := true,
        this := some
          { spell := some "VIII", base_price := some 10, treasure := some "large" } },
    parts := [] }

/-- A runtime cache holding the adversarial record. -/
def omniCache : List (String × Item) := [("Omni Chit", omniItem)]

/-- A plain record with no attribute blocks. -/
def lanternItem : Item :=
  { id := "LA1", name := "Lantern", attributeBlocks := emptyBlocks, parts := [] }

/-- A runtime map already holding an entry before seeding. -/
def preSeedRuntimeCache : List (String × Item) := [("Lantern", lanternItem)]

/-- A precomputed session cache whose key set does not contain `Lantern`. -/
def seedPrecomputed : List (String × Item) := [("Short Sword", mkRecord shortSwordDoc)]

/-- A session directory with inventories present and a previously written
artifact on disk. -/
def staleArtifactDir : SessionDir :=
  { character_inventories := some oneSwordInventories,
    precomputed_items := some "old artifact bytes" }

end Fixtures

section Lemmas

/-- The matching loop appends, to its two accumulators, the matched
name-record pairs and the unmatched names of the remaining name list. -/
theorem buildLoop_eq (catalog : List (String × Item)) (names : List String) :
    ∀ (s : List (String × Item)) (m : List String),
      buildLoop catalog names s m =
        (s ++ names.filterMap
            (fun n => (lookupRec catalog n).map (fun it => (n, it))),
         m ++ names.filter (fun n => (lookupRec catalog n).isNone)) := by
  induction names with
  | nil => intro s m; simp [buildLoop]
  | cons n rest ih =>
      intro s m
      cases h : lookupRec catalog n with
      | some it => simp [buildLoop, h, ih]
      | none => simp [buildLoop, h, ih]

/-- The key list of the matched pairs is the sublist of names found in the
catalog. -/
theorem buildKeys_eq (catalog : List (String × Item)) (names : List String) :
    (names.filterMap
        (fun n => (lookupRec catalog n).map (fun it => (n, it)))).map Prod.fst
      = names.filter (fun n => (lookupRec catalog n).isSome) := by
  induction names with
  | nil => simp
  | cons n rest ih =>
      cases h : lookupRec catalog n with
      | some it => simp [h, ih]
      | none => simp [h, ih]

/-- Membership in the result mapping's key set. -/
theorem mem_buildSessionItems_keys (catalog : List (String × Item))
    (names : List String) (n : String) :
    n ∈ (buildSessionItems catalog names).1.map Prod.fst ↔
      n ∈ names ∧ (lookupRec catalog n).isSome = true := by
  rw [buildSessionItems, buildLoop_eq]
  simp [buildKeys_eq, List.mem_filter]

/-- Membership in the missing-names list. -/
theorem mem_buildSessionItems_missing (catalog : List (String × Item))
    (names : List String) (n : String) :
    n ∈ (buildSessionItems catalog names).2 ↔
      n ∈ names ∧ (lookupRec catalog n).isNone = true := by
  rw [buildSessionItems, buildLoop_eq]
  simp [List.mem_filter]

end Lemmas





section ClaimTheorems

/-- Claim C1: for every referenced name, the session cache build must
include the catalog record in the persisted mapping whenever a record with
that name exists in either store.  The offline script build does so, but
the on-demand POST build does not: at this input the items store holds the
referenced record `Short Sword`, the script build's mapping contains it,
yet the POST build persists an empty mapping and reports the name missing,
because `searchForItems` assigns into a local binding that shadows the
outer accumulator. -/
theorem postBuild_omits_items_store_record :
    extractNames oneSwordInventories = ["Short Sword"]
    ∧ lookupRec (loadAllItemData [shortSwordDoc] []) "Short Sword"
        = some (mkRecord shortSwordDoc)
    ∧ lookupRec
        (buildSessionItems (loadAllItemData [shortSwordDoc] [])
          (extractNames oneSwordInventories)).1 "Short Sword"
        = some (mkRecord shortSwordDoc)
    ∧ (postPrecompute [shortSwordDoc] [] oneSwordInventories).itemData = []
    ∧ (postPrecompute [shortSwordDoc] [] oneSwordInventories).missingItems
        = ["Short Sword"] := by
  decide

/-- Claim C2: after the session cache build, every name in the extracted
reference set appears in exactly one of the result mapping's key set and
the missing-names list: their union covers the reference set and they are
disjoint. -/
theorem sessionCache_partitions_names (catalog : List (String × Item))
    (inventories : Inventories) (n : String) :
    (n ∈ extractNames inventories ↔
      (n ∈ (buildSessionItems catalog (extractNames inventories)).1.map Prod.fst
        ∨ n ∈ (buildSessionItems catalog (extractNames inventories)).2))
    ∧ ¬(n ∈ (buildSessionItems catalog (extractNames inventories)).1.map Prod.fst
        ∧ n ∈ (buildSessionItems catalog (extractNames inventories)).2) := by
  have hk := mem_buildSessionItems_keys catalog (extractNames inventories) n
  have hm := mem_buildSessionItems_missing catalog (extractNames inventories) n
  constructor
  · constructor
    · intro hn
      cases hs : lookupRec catalog n with
      | some it => exact Or.inl (hk.mpr ⟨hn, by simp [hs]⟩)
      | none => exact Or.inr (hm.mpr ⟨hn, by simp [hs]⟩)
    · rintro (h | h)
      · exact (hk.mp h).1
      · exact (hm.mp h).1
  · rintro ⟨h1, h2⟩
    have hs := (hk.mp h1).2
    have hn := (hm.mp h2).2
    cases hov : lookupRec catalog n <;> simp [hov] at hs hn

/-- Claim C3: with a cached record, classification applies the structural
rules of `getItemCategory` in a fixed priority order with first match
winning: armor (`intact` and `damaged`) is checked first and wins even
over a record that also exposes both weapon blocks, weapon (`unalerted`
and `alerted`) second, the spell payload third, and the priced-treasure
rule last, with `this.treasure == "large"` selecting `large_treasure` over
`treasure`. -/
theorem getItemCategory_structural_priority
    (itemCache : List (String × Item)) (itemName : String) (cached : Item)
    (h : lookupRec itemCache itemName = some cached) :
    ((cached.attributeBlocks.intact && cached.attributeBlocks.damaged) = true →
      getItemCategory itemCache itemName = "armor")
    ∧ ((cached.attributeBlocks.intact && cached.attributeBlocks.damaged) = false →
        (cached.attributeBlocks.unalerted && cached.attributeBlocks.alerted) = true →
        getItemCategory itemCache itemName = "weapon")
    ∧ ((cached.attributeBlocks.intact && cached.attributeBlocks.damaged) = false →
        (cached.attributeBlocks.unalerted && cached.attributeBlocks.alerted) = false →
        jsTruthyStr (thisSpell cached.attributeBlocks) = true →
        getItemCategory itemCache itemName = "spell")
    ∧ ((cached.attributeBlocks.intact && cached.attributeBlocks.damaged) = false →
        (cached.attributeBlocks.unalerted && cached.attributeBlocks.alerted) = false →
        jsTruthyStr (thisSpell cached.attributeBlocks) = false →
        jsTruthyNat (thisBasePrice cached.attributeBlocks) = true →
        (thisTreasure cached.attributeBlocks == some "large") = true →
        getItemCategory itemCache itemName = "large_treasure")
    ∧ ((cached.attributeBlocks.intact && cached.attributeBlocks.damaged) = false →
        (cached.attributeBlocks.unalerted && cached.attributeBlocks.alerted) = false →
        jsTruthyStr (thisSpell cached.attributeBlocks) = false →
        jsTruthyNat (thisBasePrice cached.attributeBlocks) = true →
        (thisTreasure cached.attributeBlocks == some "large") = false →
        getItemCategory itemCache itemName = "treasure") := by
  refine ⟨?_, ?_, ?_, ?_, ?_⟩ <;> intros <;> simp [getItemCategory, h, *]

/-- Witness for C3: the adversarial record exposing both the armor and the
weapon block pairs (as well as spell and priced-treasure payloads)
classifies as armor. -/
theorem getItemCategory_structural_priority_witness :
    (omniItem.attributeBlocks.intact && omniItem.attributeBlocks.damaged) = true
    ∧ (omniItem.attributeBlocks.unalerted && omniItem.attributeBlocks.alerted) = true
    ∧ getItemCategory omniCache "Omni Chit" = "armor" :=
  ⟨by decide, by decide,
    (getItemCategory_structural_priority omniCache "Omni Chit" omniItem
        (by decide)).1 (by decide)⟩

/-- Claim C4: for a name present in the runtime resolution cache,
`fetchItem` returns the cached record, leaves the cache unchanged, and
performs no lookup-service call. -/
theorem fetchItem_cached_returns_without_lookup
    (itemCache : List (String × Item)) (itemName : String) (it : Item)
    (resp : LookupResp) (h : lookupRec itemCache itemName = some it) :
    fetchItem itemCache itemName resp =
      { result := some it, cache := itemCache, lookups := 0 } := by
  simp [fetchItem, h]

/-- Witness for C4: the seeded record is served with zero lookups. -/
theorem fetchItem_cached_returns_without_lookup_witness :
    lookupRec omniCache "Omni Chit" = some omniItem
    ∧ fetchItem omniCache "Omni Chit" .notOk =
        { result := some omniItem, cache := omniCache, lookups := 0 } :=
  ⟨by decide,
    fetchItem_cached_returns_without_lookup omniCache "Omni Chit" omniItem
      .notOk (by decide)⟩

/-- Claim C5: the session cache build is idempotent: with the catalog and
the inventories file unchanged, running `processSession` a second time
reproduces the byte-identical persisted artifact and the identical status
and counts. -/
theorem processSession_idempotent (catalog : List (String × Item))
    (dir : SessionDir) :
    processSession catalog (processSession catalog dir).1
      = processSession catalog dir := by
  obtain ⟨inv, pre⟩ := dir
  cases inv with
  | none => rfl
  | some inventories => rfl

end ClaimTheorems

section ClaimTheoremsB

/-- Counterexample to claim C6 at a concrete session directory: the build
writes `precomputed_items.json` with a single in-place `fs.writeFileSync`,
so a write failing after the truncating open leaves the artifact truncated
— the previous artifact does not remain unchanged — and the truncated
state is among those a concurrent reader of the destination path can
observe during a successful write, while differing from both the previous
and the new bytes. -/
theorem sessionWrite_not_atomic_counterexample :
    ¬((processSessionW (loadAllItemData [shortSwordDoc] []) staleArtifactDir
        .failAfterTruncate).1.precomputed_items
      = staleArtifactDir.precomputed_items)
    ∧ some "" ∈ writeObservableStates staleArtifactDir.precomputed_items
        (serializeItems
          (buildSessionItems (loadAllItemData [shortSwordDoc] [])
            (extractNames oneSwordInventories)).1)
    ∧ some "" ≠ staleArtifactDir.precomputed_items
    ∧ some "" ≠ some (serializeItems
        (buildSessionItems (loadAllItemData [shortSwordDoc] [])
          (extractNames oneSwordInventories)).1) := by
  decide

/-- Claim C6 amended: each build invocation writes the artifact with one
direct `fs.writeFileSync` to the final path, not a temp-file-then-rename:
on success the artifact holds the serialized result mapping, a write
failing after the truncating open leaves the artifact truncated rather
than preserving the previous bytes, and the truncated state is one a
concurrent reader of the path can observe. -/
theorem processSession_writes_in_place (catalog : List (String × Item))
    (inventories : Inventories) (pre : Option String) :
    (processSessionW catalog
        { character_inventories := some inventories, precomputed_items := pre }
        .failAfterTruncate).1.precomputed_items = some ""
    ∧ (processSessionW catalog
        { character_inventories := some inventories, precomputed_items := pre }
        .success).1.precomputed_items
      = some (serializeItems
          (buildSessionItems catalog (extractNames inventories)).1)
    ∧ some "" ∈ writeObservableStates pre
        (serializeItems
          (buildSessionItems catalog (extractNames inventories)).1) := by
  refine ⟨rfl, rfl, ?_⟩
  simp [writeObservableStates]

/-- Claim C7: with no cached record, classification falls back to the
case-insensitive name heuristic with its fixed keyword priority:
`Broadsword` is a weapon, `Great Treasure of the Dwarves` hits the
great-AND-treasure compound rather than plain treasure or native, and
`Mystery Box` matches no keyword set and is `other`. -/
theorem nameHeuristic_fallback_cases :
    getItemCategory [] "Broadsword" = "weapon"
    ∧ getItemCategory [] "Great Treasure of the Dwarves" = "great_treasure"
    ∧ getItemCategory [] "Mystery Box" = "other" := by
  decide

/-- Claim C8: `fetchItem` never negative-caches: when the lookup for an
uncached name fails — whether by a non-ok response or a thrown error — the
runtime cache map is unchanged, and a later call for the same name issues
the lookup again. -/
theorem fetchItem_does_not_negative_cache
    (itemCache : List (String × Item)) (itemName : String)
    (resp retryResp : LookupResp)
    (h : lookupRec itemCache itemName = none)
    (hfail : resp = .notOk ∨ resp = .thrown) :
    (fetchItem itemCache itemName resp).cache = itemCache
    ∧ (fetchItem (fetchItem itemCache itemName resp).cache itemName
        retryResp).lookups = 1 := by
  have hc : (fetchItem itemCache itemName resp).cache = itemCache := by
    rcases hfail with rfl | rfl <;> simp [fetchItem, h]
  refine ⟨hc, ?_⟩
  rw [hc]
  cases retryResp <;> simp [fetchItem, h]

/-- Witness for C8: a failed lookup for an uncached name leaves the empty
cache empty and the retry performs one lookup. -/
theorem fetchItem_does_not_negative_cache_witness :
    lookupRec [] "Lost Relic" = none
    ∧ ((fetchItem [] "Lost Relic" .notOk).cache = []
        ∧ (fetchItem (fetchItem [] "Lost Relic" .notOk).cache "Lost Relic"
            .notOk).lookups = 1) :=
  ⟨by decide,
    fetchItem_does_not_negative_cache [] "Lost Relic" .notOk .notOk
      (by decide) (Or.inl rfl)⟩

/-- Counterexample to claim C9 at a concrete input: the runtime map holds
an entry for `Lantern`, a key absent from the precomputed cache, and after
seeding that entry is gone — seeding is not a merge that preserves entries
under keys outside the precomputed cache. -/
theorem seed_discards_prior_entries_counterexample :
    lookupRec preSeedRuntimeCache "Lantern" = some lanternItem
    ∧ (lookupRec seedPrecomputed "Lantern").isNone = true
    ∧ ¬(lookupRec (setItemCacheSeed preSeedRuntimeCache seedPrecomputed)
          "Lantern" = some lanternItem) := by
  decide

/-- Claim C9 amended: seeding replaces the runtime map wholesale with the
precomputed cache: afterwards every lookup is answered exactly as by the
precomputed cache — each precomputed entry is present (precomputed data
winning on any collision), and entries previously in the runtime map under
keys not in the precomputed cache are discarded. -/
theorem setItemCacheSeed_replaces
    (current itemsData : List (String × Item)) (n : String) :
    lookupRec (setItemCacheSeed current itemsData) n = lookupRec itemsData n :=
  rfl

/-- Claim C10: at the public interface `fetchItem` yields the explicit
absent result `null` on both failure paths — the non-ok response covering
a missing record, and the thrown network or parse error, which the
function catches — rather than propagating an exception; totality is
witnessed by `fetchItem` being a total function of the cache, the name,
and the response. -/
theorem fetchItem_failure_paths_return_none
    (itemCache : List (String × Item)) (itemName : String)
    (h : lookupRec itemCache itemName = none) :
    (fetchItem itemCache itemName .notOk).result = none
    ∧ (fetchItem itemCache itemName .thrown).result = none := by
  simp [fetchItem, h]

/-- Witness for C10: both failure responses for an uncached name produce
the absent result. -/
theorem fetchItem_failure_paths_return_none_witness :
    lookupRec [] "Lost Relic" = none
    ∧ ((fetchItem [] "Lost Relic" .notOk).result = none
        ∧ (fetchItem [] "Lost Relic" .thrown).result = none) :=
  ⟨by decide, fetchItem_failure_paths_return_none [] "Lost Relic" (by decide)⟩

end ClaimTheoremsB
